import Mathlib

/-!
Verification of the school-management API (`src/routes/schools.js`).

The JavaScript source computes with IEEE doubles; this development idealises
doubles as real numbers, the standard shallow embedding for the numerical
layer. `Math.atan2` is modelled by cases exactly as the JS builtin behaves on
real arguments, `Number(x.toFixed(3))` as round-half-up at three decimals, and
`Array.prototype.sort` (mandated stable since ES2019, and the comparator
`(a, b) => a.distance_km - b.distance_km` orders by `distance_km`) as the
stable `List.mergeSort`. The express-validator chains registered on the two
routes run every validator of a chain (the source uses no `bail()`), each
failure appending one structured error; sanitizers (`trim()`, `toFloat()`)
rewrite the request body before the handler reads it. The MySQL store is a
list of rows plus an auto-increment counter, and each handler records the
store operations it performs.
-/

namespace SchoolAPI

/-- Function `toRad` from schools.js line 9: `(value * Math.PI) / 180`. -/
noncomputable def toRad (value : ℝ) : ℝ :=
  value * Real.pi / 180

/-- The builtin `Math.atan2 y x` on real (non-NaN) arguments, by the usual quadrant
case split of the JS builtin. -/
noncomputable def atan2 (y x : ℝ) : ℝ :=
  if 0 < x then Real.arctan (y / x)
  else if x < 0 then
    (if 0 ≤ y then Real.arctan (y / x) + Real.pi else Real.arctan (y / x) - Real.pi)
  else
    (if 0 < y then Real.pi / 2 else if y < 0 then -(Real.pi / 2) else 0)

/-- Function `haversine` from schools.js lines 14-24, with the local `const`s inlined:
`R = 6371`, `dLat = toRad(lat2 - lat1)`, `dLon = toRad(lon2 - lon1)`,
`a = sin(dLat/2)^2 + cos(toRad lat1) * cos(toRad lat2) * sin(dLon/2)^2`,
`c = 2 * atan2(sqrt a, sqrt (1 - a))`, result `R * c`. -/
noncomputable def haversine (lat1 lon1 lat2 lon2 : ℝ) : ℝ :=
  6371 *
    (2 * atan2
      (Real.sqrt (Real.sin (toRad (lat2 - lat1) / 2) ^ 2 +
        Real.cos (toRad lat1) * Real.cos (toRad lat2) *
          Real.sin (toRad (lon2 - lon1) / 2) ^ 2))
      (Real.sqrt (1 - (Real.sin (toRad (lat2 - lat1) / 2) ^ 2 +
        Real.cos (toRad lat1) * Real.cos (toRad lat2) *
          Real.sin (toRad (lon2 - lon1) / 2) ^ 2))))

/-- The conversion `Number(x.toFixed(3))` for a real `x`: round to the nearest multiple of
a thousandth, ties toward the larger value. -/
noncomputable def round3 (x : ℝ) : ℝ :=
  (⌊x * 1000 + 1 / 2⌋ : ℤ) / 1000

/-- A persisted row of the `schools` table. -/
structure School where
  id : Nat
  name : String
  address : String
  latitude : ℝ
  longitude : ℝ

/-- One element of the `schools` array in the listSchools response
(schools.js lines 99-106). -/
structure RankedSchool where
  id : Nat
  name : String
  address : String
  latitude : ℝ
  longitude : ℝ
  distance_km : ℝ

/-- The map body at schools.js lines 96-107: copy the row and attach
`distance_km = Number(haversine(userLat, userLng, lat, lng).toFixed(3))`. -/
noncomputable def toRanked (userLat userLng : ℝ) (s : School) : RankedSchool :=
  { id := s.id
    name := s.name
    address := s.address
    latitude := s.latitude
    longitude := s.longitude
    distance_km := round3 (haversine userLat userLng s.latitude s.longitude) }

/-- The sort comparator at schools.js line 109: `a.distance_km - b.distance_km`
is nonpositive exactly when `a.distance_km ≤ b.distance_km`. -/
noncomputable def distLE (a b : RankedSchool) : Bool :=
  @decide (a.distance_km ≤ b.distance_km) (Classical.propDecidable _)

/-- The ranking of schools.js lines 96-109: map every row to a
`RankedSchool`, then sort (stably) by `distance_km`. -/
noncomputable def rank (userLat userLng : ℝ) (rows : List School) : List RankedSchool :=
  (rows.map (toRanked userLat userLng)).mergeSort distLE

/-- A structured field error as express-validator reports it:
the offending path and the `withMessage` text. -/
structure FieldError where
  path : String
  msg : String
deriving DecidableEq

/-- The JSON body of a `POST /addSchool` request, restricted to the shapes
the validators distinguish: each field either absent or present, `name` and
`address` as text, `latitude` and `longitude` as numbers. -/
structure AddBody where
  name : Option String
  address : Option String
  latitude : Option ℝ
  longitude : Option ℝ

/-- The `trim()` sanitizer applied to a possibly missing field: a missing
value is coerced to the empty string, then surrounding whitespace is
stripped from both ends. -/
def trimmed (v : Option String) : String :=
  ⟨(((v.getD "").data.dropWhile Char.isWhitespace).reverse.dropWhile
      Char.isWhitespace).reverse⟩

/-- The chain `body(latitude).notEmpty().withMessage(...).isFloat({min:-90,max:90})
.withMessage(...)` (schools.js lines 34-36): with no `bail()`, every validator
of the chain runs, so a missing value fails both `notEmpty` and `isFloat` and
contributes two errors; a present out-of-range number fails only `isFloat`. -/
noncomputable def validateAddLatitude (v : Option ℝ) : List FieldError :=
  match v with
  | none =>
    [⟨"latitude", "Latitude is required"⟩,
     ⟨"latitude", "Latitude must be between -90 and 90"⟩]
  | some x =>
    if -90 ≤ x ∧ x ≤ 90 then []
    else [⟨"latitude", "Latitude must be between -90 and 90"⟩]

/-- The chain for `longitude` (schools.js lines 37-39), same shape with the
range [-180, 180]. -/
noncomputable def validateAddLongitude (v : Option ℝ) : List FieldError :=
  match v with
  | none =>
    [⟨"longitude", "Longitude is required"⟩,
     ⟨"longitude", "Longitude must be between -180 and 180"⟩]
  | some x =>
    if -180 ≤ x ∧ x ≤ 180 then []
    else [⟨"longitude", "Longitude must be between -180 and 180"⟩]

/-- All four validator chains of `POST /addSchool` (schools.js lines 32-39),
in registration order; `errors.array()` concatenates their failures. -/
noncomputable def validateAdd (b : AddBody) : List FieldError :=
  (if 1 ≤ (trimmed b.name).length then [] else [⟨"name", "Name is required"⟩])
    ++ (if 1 ≤ (trimmed b.address).length then []
        else [⟨"address", "Address is required"⟩])
    ++ validateAddLatitude b.latitude
    ++ validateAddLongitude b.longitude

/-- The relational store: the `schools` table rows in insertion order plus the
auto-increment counter for the next `id`. -/
structure Store where
  rows : List School
  nextId : Nat

/-- The statement `INSERT INTO schools ... VALUES (?, ?, ?, ?)`: append a row with the
store-assigned id and return that id as `insertId`. -/
def Store.insert (st : Store) (name address : String) (lat lng : ℝ) :
    Store × Nat :=
  (⟨st.rows ++ [⟨st.nextId, name, address, lat, lng⟩], st.nextId + 1⟩, st.nextId)

/-- A store operation performed while handling one request. -/
inductive StoreOp where
  | insert (name address : String) (latitude longitude : ℝ)
  | selectAll

/-- The response of `POST /addSchool`: 400 with the collected field errors,
or 201 echoing the inserted record. -/
inductive AddResponse where
  | badRequest (errors : List FieldError)
  | created (message : String) (data : School)

/-- HTTP status of an addSchool response. -/
def AddResponse.status : AddResponse → Nat
  | .badRequest _ => 400
  | .created _ _ => 201

/-- The `POST /addSchool` handler (schools.js lines 40-69) on its non-500
paths: on any validation failure respond 400 with `errors.array()` and touch
nothing; otherwise read the sanitized body (trimmed text, floats present
because validation passed), insert, and respond 201 with the new record.
The third component is the list of store operations performed. -/
noncomputable def addSchool (b : AddBody) (st : Store) :
    AddResponse × Store × List StoreOp :=
  if validateAdd b = [] then
    (.created "School added successfully"
       ⟨(st.insert (trimmed b.name) (trimmed b.address)
           (b.latitude.getD 0) (b.longitude.getD 0)).2,
        trimmed b.name, trimmed b.address, b.latitude.getD 0, b.longitude.getD 0⟩,
     (st.insert (trimmed b.name) (trimmed b.address)
        (b.latitude.getD 0) (b.longitude.getD 0)).1,
     [.insert (trimmed b.name) (trimmed b.address)
        (b.latitude.getD 0) (b.longitude.getD 0)])
  else
    (.badRequest (validateAdd b), st, [])

/-- The query string of a `GET /listSchools` request. -/
structure ListQuery where
  lat : Option ℝ
  lng : Option ℝ

/-- The chains `query(lat)` and `query(lng)` (schools.js lines 78-83), same
structure as the body chains of addSchool. -/
noncomputable def validateList (q : ListQuery) : List FieldError :=
  (match q.lat with
   | none =>
     [⟨"lat", "lat is required"⟩, ⟨"lat", "lat must be between -90 and 90"⟩]
   | some x =>
     if -90 ≤ x ∧ x ≤ 90 then []
     else [⟨"lat", "lat must be between -90 and 90"⟩])
    ++ (match q.lng with
        | none =>
          [⟨"lng", "lng is required"⟩,
           ⟨"lng", "lng must be between -180 and 180"⟩]
        | some x =>
          if -180 ≤ x ∧ x ≤ 180 then []
          else [⟨"lng", "lng must be between -180 and 180"⟩])

/-- The response of `GET /listSchools`: 400 with the collected field errors,
or 200 with the echoed query point, the count and the ranked list. -/
inductive ListResponse where
  | badRequest (errors : List FieldError)
  | ok (lat lng : ℝ) (total : Nat) (schools : List RankedSchool)

/-- HTTP status of a listSchools response. -/
def ListResponse.status : ListResponse → Nat
  | .badRequest _ => 400
  | .ok _ _ _ _ => 200

/-- The `GET /listSchools` handler (schools.js lines 84-116) on its non-500
paths: on validation failure respond 400 and do not query the store;
otherwise `SELECT` every row, rank by distance from the query point, and
respond with the query point, the total and the ordered list. -/
noncomputable def listSchools (q : ListQuery) (st : Store) :
    ListResponse × List StoreOp :=
  if validateList q = [] then
    (.ok (q.lat.getD 0) (q.lng.getD 0)
       (rank (q.lat.getD 0) (q.lng.getD 0) st.rows).length
       (rank (q.lat.getD 0) (q.lng.getD 0) st.rows),
     [.selectAll])
  else
    (.badRequest (validateList q), [])

/-! ### Helper lemmas about the numerical layer -/

/-- Applying `atan2` to two nonnegative arguments is nonnegative. -/
theorem atan2_nonneg {y x : ℝ} (hy : 0 ≤ y) (hx : 0 ≤ x) : 0 ≤ atan2 y x := by
  unfold atan2
  rcases lt_or_eq_of_le hx with hx' | hx'
  · rw [if_pos hx']
    have h := Real.arctan_strictMono.monotone (div_nonneg hy hx'.le)
    rwa [Real.arctan_zero] at h
  · rw [if_neg (by rw [← hx']; exact lt_irrefl 0),
      if_neg (by rw [← hx']; exact lt_irrefl 0)]
    rcases lt_or_eq_of_le hy with hy' | hy'
    · rw [if_pos hy']
      positivity
    · rw [if_neg (by rw [← hy']; exact lt_irrefl 0), if_neg (by rw [← hy']; exact lt_irrefl 0)]

/-- Evaluation fact `atan2 0 1 = 0`. -/
theorem atan2_zero_one : atan2 0 1 = 0 := by
  unfold atan2
  rw [if_pos one_pos]
  simp [Real.arctan_zero]

/-- The haversine distance is never negative. -/
theorem haversine_nonneg (lat1 lon1 lat2 lon2 : ℝ) :
    0 ≤ haversine lat1 lon1 lat2 lon2 := by
  unfold haversine
  have h := atan2_nonneg (Real.sqrt_nonneg
    (Real.sin (toRad (lat2 - lat1) / 2) ^ 2 +
      Real.cos (toRad lat1) * Real.cos (toRad lat2) *
        Real.sin (toRad (lon2 - lon1) / 2) ^ 2))
    (Real.sqrt_nonneg (1 - (Real.sin (toRad (lat2 - lat1) / 2) ^ 2 +
      Real.cos (toRad lat1) * Real.cos (toRad lat2) *
        Real.sin (toRad (lon2 - lon1) / 2) ^ 2)))
  positivity

/-- The haversine distance from a point to itself is zero. -/
theorem haversine_self (lat lon : ℝ) : haversine lat lon lat lon = 0 := by
  unfold haversine toRad
  rw [sub_self, zero_mul, zero_div, zero_div, Real.sin_zero]
  norm_num [atan2_zero_one]

/-- The haversine distance is symmetric in its two points. -/
theorem haversine_symm (lat1 lon1 lat2 lon2 : ℝ) :
    haversine lat1 lon1 lat2 lon2 = haversine lat2 lon2 lat1 lon1 := by
  unfold haversine
  have hlat : toRad (lat1 - lat2) / 2 = -(toRad (lat2 - lat1) / 2) := by
    unfold toRad; ring
  have hlon : toRad (lon1 - lon2) / 2 = -(toRad (lon2 - lon1) / 2) := by
    unfold toRad; ring
  rw [hlat, hlon, Real.sin_neg, Real.sin_neg, neg_sq, neg_sq,
    mul_comm (Real.cos (toRad lat2)) (Real.cos (toRad lat1))]

/-- Rounding, `round3`, is zero at zero. -/
theorem round3_zero : round3 0 = 0 := by
  unfold round3
  have h : ⌊(0 : ℝ) * 1000 + 1 / 2⌋ = 0 := by
    rw [Int.floor_eq_zero_iff, Set.mem_Ico]
    constructor <;> norm_num
  rw [h]
  norm_num

/-- Rounding `round3` of a nonnegative real is nonnegative. -/
theorem round3_nonneg {x : ℝ} (hx : 0 ≤ x) : 0 ≤ round3 x := by
  unfold round3
  have h : (0 : ℤ) ≤ ⌊x * 1000 + 1 / 2⌋ := by
    rw [Int.le_floor]
    push_cast
    nlinarith
  positivity

/-- The sort comparator is transitive. -/
theorem distLE_trans (a b c : RankedSchool)
    (hab : distLE a b) (hbc : distLE b c) : distLE a c := by
  unfold distLE at *
  rw [decide_eq_true_eq] at *
  exact le_trans hab hbc

/-- The sort comparator is total. -/
theorem distLE_total (a b : RankedSchool) : distLE a b || distLE b a := by
  unfold distLE
  rcases le_total a.distance_km b.distance_km with h | h
  · simp [h]
  · simp [h]

/-- The latitude chain accepts exactly the present in-range values. -/
theorem validateAddLatitude_eq_nil {v : Option ℝ} :
    validateAddLatitude v = [] ↔ ∃ x, v = some x ∧ -90 ≤ x ∧ x ≤ 90 := by
  cases v with
  | none => simp [validateAddLatitude]
  | some x =>
    simp only [validateAddLatitude]
    split_ifs with h
    · simp [h.1, h.2]
    · simp only [List.cons_ne_nil, false_iff]
      rintro ⟨y, hy, h1, h2⟩
      cases hy
      exact h ⟨h1, h2⟩

/-- The longitude chain accepts exactly the present in-range values. -/
theorem validateAddLongitude_eq_nil {v : Option ℝ} :
    validateAddLongitude v = [] ↔ ∃ x, v = some x ∧ -180 ≤ x ∧ x ≤ 180 := by
  cases v with
  | none => simp [validateAddLongitude]
  | some x =>
    simp only [validateAddLongitude]
    split_ifs with h
    · simp [h.1, h.2]
    · simp only [List.cons_ne_nil, false_iff]
      rintro ⟨y, hy, h1, h2⟩
      cases hy
      exact h ⟨h1, h2⟩

/-- Decomposition of a passing addSchool validation. -/
theorem validateAdd_eq_nil {b : AddBody} :
    validateAdd b = [] ↔
      1 ≤ (trimmed b.name).length ∧ 1 ≤ (trimmed b.address).length ∧
      (∃ x, b.latitude = some x ∧ -90 ≤ x ∧ x ≤ 90) ∧
      (∃ y, b.longitude = some y ∧ -180 ≤ y ∧ y ≤ 180) := by
  unfold validateAdd
  rw [List.append_eq_nil, List.append_eq_nil, List.append_eq_nil,
    validateAddLatitude_eq_nil, validateAddLongitude_eq_nil]
  constructor
  · rintro ⟨⟨⟨h1, h2⟩, h3⟩, h4⟩
    refine ⟨?_, ?_, h3, h4⟩
    · by_contra h
      rw [if_neg h] at h1
      exact List.cons_ne_nil _ _ h1
    · by_contra h
      rw [if_neg h] at h2
      exact List.cons_ne_nil _ _ h2
  · rintro ⟨h1, h2, h3, h4⟩
    exact ⟨⟨⟨by rw [if_pos h1], by rw [if_pos h2]⟩, h3⟩, h4⟩

/-- An in-range query point passes the listSchools validation. -/
theorem validateList_eq_nil_of_ranges {x y : ℝ}
    (hx1 : -90 ≤ x) (hx2 : x ≤ 90) (hy1 : -180 ≤ y) (hy2 : y ≤ 180) :
    validateList ⟨some x, some y⟩ = [] := by
  unfold validateList
  simp [hx1, hx2, hy1, hy2]

/-- Modelled on the wording of spec §4.1 for the refinement claim C2:
convert the four degree values to radians first, take `dLat` and `dLon` as
differences of the radian values, then
`a = sin(dLat/2)^2 + cos(lat1r) * cos(lat2r) * sin(dLon/2)^2`,
`c = 2 * atan2(sqrt a, sqrt (1 - a))`, `distance = 6371 * c`. -/
noncomputable def specDistance (lat1 lon1 lat2 lon2 : ℝ) : ℝ :=
  6371 *
    (2 * atan2
      (Real.sqrt (Real.sin ((toRad lat2 - toRad lat1) / 2) ^ 2 +
        Real.cos (toRad lat1) * Real.cos (toRad lat2) *
          Real.sin ((toRad lon2 - toRad lon1) / 2) ^ 2))
      (Real.sqrt (1 - (Real.sin ((toRad lat2 - toRad lat1) / 2) ^ 2 +
        Real.cos (toRad lat1) * Real.cos (toRad lat2) *
          Real.sin ((toRad lon2 - toRad lon1) / 2) ^ 2))))

/-! ### Claim theorems -/

/-- C1: for every query point and every list of N stored schools, the ranking
operation returns exactly N ranked records, each with `distance_km ≥ 0`, and
the returned sequence is non-decreasing in `distance_km`. -/
theorem rank_length_nonneg_sorted (userLat userLng : ℝ) (rows : List School) :
    (rank userLat userLng rows).length = rows.length ∧
    (∀ r ∈ rank userLat userLng rows, 0 ≤ r.distance_km) ∧
    (rank userLat userLng rows).Pairwise
      (fun a b => a.distance_km ≤ b.distance_km) := by
  refine ⟨?_, ?_, ?_⟩
  · rw [rank, List.length_mergeSort, List.length_map]
  · intro r hr
    rw [rank, List.mem_mergeSort, List.mem_map] at hr
    obtain ⟨s, _, rfl⟩ := hr
    exact round3_nonneg (haversine_nonneg _ _ _ _)
  · have h := List.sorted_mergeSort distLE_trans distLE_total
      (rows.map (toRanked userLat userLng))
    exact h.imp fun hab => of_decide_eq_true hab

/-- C2: the distance function computes the haversine great-circle distance
exactly as spec §4.1 states it: degrees to radians, radian differences,
`a`, `c = 2 * atan2(sqrt a, sqrt (1 - a))`, and `6371 * c`. -/
theorem haversine_eq_spec_formula (lat1 lon1 lat2 lon2 : ℝ) :
    haversine lat1 lon1 lat2 lon2 = specDistance lat1 lon1 lat2 lon2 := by
  unfold haversine specDistance
  rw [show toRad (lat2 - lat1) = toRad lat2 - toRad lat1 from by unfold toRad; ring,
    show toRad (lon2 - lon1) = toRad lon2 - toRad lon1 from by unfold toRad; ring]

/-- C5: the distance function is symmetric in its two points. -/
theorem haversine_comm (lat1 lon1 lat2 lon2 : ℝ) :
    haversine lat1 lon1 lat2 lon2 = haversine lat2 lon2 lat1 lon1 :=
  haversine_symm lat1 lon1 lat2 lon2

/-- C6: the distance from a point to itself is exactly 0. -/
theorem haversine_self_eq_zero (lat lon : ℝ) :
    haversine lat lon lat lon = 0 :=
  haversine_self lat lon

/-- C3: every addSchool or listSchools request that fails validation gets a
400 response carrying the structured field errors, the store is untouched and
no store operation (insert or select) is performed. -/
theorem validation_failure_no_store_access :
    (∀ (b : AddBody) (st : Store), validateAdd b ≠ [] →
      addSchool b st = (.badRequest (validateAdd b), st, []) ∧
      (addSchool b st).1.status = 400) ∧
    (∀ (q : ListQuery) (st : Store), validateList q ≠ [] →
      listSchools q st = (.badRequest (validateList q), []) ∧
      (listSchools q st).1.status = 400) := by
  constructor
  · intro b st h
    unfold addSchool
    rw [if_neg h]
    exact ⟨rfl, rfl⟩
  · intro q st h
    unfold listSchools
    rw [if_neg h]
    exact ⟨rfl, rfl⟩

/-- Witness for C3: the all-fields-missing body fails validation, and the
handler answers 400 without touching the store. -/
theorem validation_failure_no_store_access_witness :
    validateAdd ⟨none, none, none, none⟩ ≠ [] ∧
    (addSchool ⟨none, none, none, none⟩ ⟨[], 1⟩ =
       (.badRequest (validateAdd ⟨none, none, none, none⟩), ⟨[], 1⟩, []) ∧
     (addSchool ⟨none, none, none, none⟩ ⟨[], 1⟩).1.status = 400) := by
  have h : validateAdd ⟨none, none, none, none⟩ ≠ [] := by
    simp [validateAdd, validateAddLatitude, validateAddLongitude, trimmed]
  exact ⟨h, validation_failure_no_store_access.1 ⟨none, none, none, none⟩ ⟨[], 1⟩ h⟩

/-- C4: every ranked record produced by listSchools carries as `distance_km`
the haversine distance from the query point to that school rounded to three
decimals. -/
theorem listSchools_distance_is_rounded_haversine
    (q : ListQuery) (st : Store) (lat lng : ℝ) (total : Nat)
    (schools : List RankedSchool) (ops : List StoreOp)
    (h : listSchools q st = (.ok lat lng total schools, ops)) :
    ∀ r ∈ schools,
      r.distance_km = round3 (haversine lat lng r.latitude r.longitude) ∧
      ∃ s ∈ st.rows, r = toRanked lat lng s := by
  unfold listSchools at h
  by_cases hv : validateList q = []
  · rw [if_pos hv, Prod.mk.injEq] at h
    obtain ⟨h1, -⟩ := h
    rw [ListResponse.ok.injEq] at h1
    obtain ⟨hlat, hlng, -, hsch⟩ := h1
    subst hlat
    subst hlng
    subst hsch
    intro r hr
    rw [rank, List.mem_mergeSort, List.mem_map] at hr
    obtain ⟨s, hs, rfl⟩ := hr
    exact ⟨rfl, s, hs, rfl⟩
  · rw [if_neg hv, Prod.mk.injEq] at h
    obtain ⟨h1, -⟩ := h
    cases h1

/-- Witness for C4: a one-school store queried from the origin. -/
theorem listSchools_distance_is_rounded_haversine_witness :
    (listSchools ⟨some 0, some 0⟩ ⟨[⟨1, "A", "B", 0, 0⟩], 2⟩ =
       (.ok 0 0 1 [toRanked 0 0 ⟨1, "A", "B", 0, 0⟩], [.selectAll])) ∧
    ∀ r ∈ [toRanked 0 0 ⟨1, "A", "B", 0, 0⟩],
      r.distance_km = round3 (haversine 0 0 r.latitude r.longitude) ∧
      ∃ s ∈ (Store.mk [⟨1, "A", "B", 0, 0⟩] 2).rows, r = toRanked 0 0 s := by
  have h : listSchools ⟨some 0, some 0⟩ ⟨[⟨1, "A", "B", 0, 0⟩], 2⟩ =
      (.ok 0 0 1 [toRanked 0 0 ⟨1, "A", "B", 0, 0⟩], [.selectAll]) := by
    unfold listSchools
    rw [if_pos (validateList_eq_nil_of_ranges (by norm_num) (by norm_num)
      (by norm_num) (by norm_num))]
    simp [rank]
  exact ⟨h,
    listSchools_distance_is_rounded_haversine ⟨some 0, some 0⟩
      ⟨[⟨1, "A", "B", 0, 0⟩], 2⟩ 0 0 1 [toRanked 0 0 ⟨1, "A", "B", 0, 0⟩]
      [.selectAll] h⟩

/-- C7: the sort is stable — two records with identical rounded
`distance_km` keep their relative store iteration order in the ranking
output, and (the ranking being a pure function of its input) repeated calls
with the same input yield the same output order. -/
theorem rank_ties_stable (userLat userLng : ℝ) (rows : List School)
    (a b : RankedSchool) (hd : a.distance_km = b.distance_km)
    (hsub : List.Sublist [a, b] (rows.map (toRanked userLat userLng))) :
    List.Sublist [a, b] (rank userLat userLng rows) ∧
    rank userLat userLng rows = rank userLat userLng rows := by
  refine ⟨?_, rfl⟩
  apply List.pair_sublist_mergeSort distLE_trans distLE_total ?_ hsub
  simp [distLE, hd]

/-- Witness for C7: two schools at the same coordinates tie at distance 0
and keep their store order. -/
theorem rank_ties_stable_witness :
    (toRanked 0 0 ⟨1, "A", "a", 0, 0⟩).distance_km =
      (toRanked 0 0 ⟨2, "B", "b", 0, 0⟩).distance_km ∧
    List.Sublist [toRanked 0 0 ⟨1, "A", "a", 0, 0⟩, toRanked 0 0 ⟨2, "B", "b", 0, 0⟩]
      (([⟨1, "A", "a", 0, 0⟩, ⟨2, "B", "b", 0, 0⟩] : List School).map (toRanked 0 0)) ∧
    List.Sublist [toRanked 0 0 ⟨1, "A", "a", 0, 0⟩, toRanked 0 0 ⟨2, "B", "b", 0, 0⟩]
      (rank 0 0 [⟨1, "A", "a", 0, 0⟩, ⟨2, "B", "b", 0, 0⟩]) := by
  have hd : (toRanked 0 0 (⟨1, "A", "a", 0, 0⟩ : School)).distance_km =
      (toRanked 0 0 (⟨2, "B", "b", 0, 0⟩ : School)).distance_km := rfl
  have hsub : List.Sublist [toRanked 0 0 (⟨1, "A", "a", 0, 0⟩ : School),
      toRanked 0 0 (⟨2, "B", "b", 0, 0⟩ : School)]
      (([⟨1, "A", "a", 0, 0⟩, ⟨2, "B", "b", 0, 0⟩] : List School).map (toRanked 0 0)) := by
    rw [List.map_cons, List.map_cons, List.map_nil]
  exact ⟨hd, hsub,
    (rank_ties_stable 0 0 [⟨1, "A", "a", 0, 0⟩, ⟨2, "B", "b", 0, 0⟩] _ _ hd hsub).1⟩

/-- Counterexample to C8 as stated: with `latitude` missing, the chain does
not stop at its first failing rule — both the `notEmpty` and the `isFloat`
validator fail, and `errors.array()` carries two latitude entries. -/
theorem validateAdd_latitude_chain_two_errors :
    validateAdd ⟨some "A", some "B", none, some 0⟩ =
      [⟨"latitude", "Latitude is required"⟩,
       ⟨"latitude", "Latitude must be between -90 and 90"⟩] := by
  have h1 : 1 ≤ (trimmed (some "A")).length := by decide
  have h2 : 1 ≤ (trimmed (some "B")).length := by decide
  unfold validateAdd validateAddLatitude validateAddLongitude
  dsimp only
  rw [if_pos h1, if_pos h2,
    if_pos (⟨by norm_num, by norm_num⟩ : (-180 : ℝ) ≤ 0 ∧ (0 : ℝ) ≤ 180)]
  rfl

/-- C8 amended: all field errors are collected and returned together in one
list — blank name and blank address each contribute their entry — but a
chain contributes one entry per failing validator rather than stopping at
the first failing rule: a missing latitude yields both the required and the
range error. -/
theorem validateAdd_collects_all_rule_failures (b : AddBody)
    (hn : trimmed b.name = "") (ha : trimmed b.address = "")
    (hlat : b.latitude = none) :
    FieldError.mk "name" "Name is required" ∈ validateAdd b ∧
    FieldError.mk "address" "Address is required" ∈ validateAdd b ∧
    FieldError.mk "latitude" "Latitude is required" ∈ validateAdd b ∧
    FieldError.mk "latitude" "Latitude must be between -90 and 90" ∈ validateAdd b := by
  unfold validateAdd
  rw [hn, ha, hlat]
  unfold validateAddLatitude
  simp

/-- Witness for the amended C8. -/
theorem validateAdd_collects_all_rule_failures_witness :
    trimmed (some "   ") = "" ∧ trimmed none = "" ∧
    (FieldError.mk "name" "Name is required" ∈
       validateAdd ⟨some "   ", none, none, some 0⟩ ∧
     FieldError.mk "address" "Address is required" ∈
       validateAdd ⟨some "   ", none, none, some 0⟩ ∧
     FieldError.mk "latitude" "Latitude is required" ∈
       validateAdd ⟨some "   ", none, none, some 0⟩ ∧
     FieldError.mk "latitude" "Latitude must be between -90 and 90" ∈
       validateAdd ⟨some "   ", none, none, some 0⟩) :=
  ⟨by decide, by decide,
   validateAdd_collects_all_rule_failures ⟨some "   ", none, none, some 0⟩
     (by decide) (by decide) rfl⟩

/-- C9: a school added successfully via addSchool appears, in a subsequent
listSchools query using that school's own coordinates as the query point,
with `distance_km = 0`. -/
theorem add_then_list_roundtrip (b : AddBody) (st : Store) (x y : ℝ)
    (hx : b.latitude = some x) (hy : b.longitude = some y)
    (hv : validateAdd b = []) :
    ∃ total ranked,
      listSchools ⟨some x, some y⟩ (addSchool b st).2.1 =
        (.ok x y total ranked, [.selectAll]) ∧
      ∃ r ∈ ranked,
        r.id = st.nextId ∧ r.name = trimmed b.name ∧
        r.address = trimmed b.address ∧ r.latitude = x ∧ r.longitude = y ∧
        r.distance_km = 0 := by
  obtain ⟨-, -, ⟨x', hx', hx1, hx2⟩, ⟨y', hy', hy1, hy2⟩⟩ := validateAdd_eq_nil.mp hv
  rw [hx] at hx'
  injection hx' with ex
  subst ex
  rw [hy] at hy'
  injection hy' with ey
  subst ey
  have hadd : (addSchool b st).2.1 =
      Store.mk (st.rows ++ [⟨st.nextId, trimmed b.name, trimmed b.address, x, y⟩])
        (st.nextId + 1) := by
    unfold addSchool
    rw [if_pos hv]
    simp [Store.insert, hx, hy]
  rw [hadd]
  have hl : validateList ⟨some x, some y⟩ = [] :=
    validateList_eq_nil_of_ranges hx1 hx2 hy1 hy2
  refine ⟨(rank x y (st.rows ++ [⟨st.nextId, trimmed b.name, trimmed b.address, x, y⟩])).length,
    rank x y (st.rows ++ [⟨st.nextId, trimmed b.name, trimmed b.address, x, y⟩]), ?_, ?_⟩
  · unfold listSchools
    rw [if_pos hl]
    rfl
  · refine ⟨toRanked x y ⟨st.nextId, trimmed b.name, trimmed b.address, x, y⟩, ?_,
      rfl, rfl, rfl, rfl, rfl, ?_⟩
    · rw [rank, List.mem_mergeSort]
      exact List.mem_map_of_mem _ (by simp)
    · show round3 (haversine x y x y) = 0
      rw [haversine_self, round3_zero]

/-- Witness for C9: add a school at the origin to an empty store and query
from the origin. -/
theorem add_then_list_roundtrip_witness :
    (AddBody.mk (some "A") (some "B") (some 0) (some 0)).latitude = some 0 ∧
    (AddBody.mk (some "A") (some "B") (some 0) (some 0)).longitude = some 0 ∧
    validateAdd ⟨some "A", some "B", some 0, some 0⟩ = [] ∧
    ∃ total ranked,
      listSchools ⟨some 0, some 0⟩
          (addSchool ⟨some "A", some "B", some 0, some 0⟩ ⟨[], 1⟩).2.1 =
        (.ok 0 0 total ranked, [.selectAll]) ∧
      ∃ r ∈ ranked,
        r.id = (Store.mk [] 1).nextId ∧
        r.name = trimmed (some "A") ∧ r.address = trimmed (some "B") ∧
        r.latitude = 0 ∧ r.longitude = 0 ∧ r.distance_km = 0 := by
  have hv : validateAdd ⟨some "A", some "B", some 0, some 0⟩ = [] :=
    validateAdd_eq_nil.mpr ⟨by decide, by decide,
      ⟨0, rfl, by norm_num, by norm_num⟩, ⟨0, rfl, by norm_num, by norm_num⟩⟩
  exact ⟨rfl, rfl, hv,
    add_then_list_roundtrip ⟨some "A", some "B", some 0, some 0⟩ ⟨[], 1⟩ 0 0 rfl rfl hv⟩

/-- C10: for every addSchool request that passes validation, the name and
address inserted into the store and echoed in the 201 response are the
whitespace-trimmed forms of the submitted values. -/
theorem addSchool_inserts_trimmed (b : AddBody) (st : Store)
    (hv : validateAdd b = []) :
    ∃ lat lng, b.latitude = some lat ∧ b.longitude = some lng ∧
      addSchool b st =
        (.created "School added successfully"
           ⟨st.nextId, trimmed b.name, trimmed b.address, lat, lng⟩,
         Store.mk (st.rows ++ [⟨st.nextId, trimmed b.name, trimmed b.address, lat, lng⟩])
           (st.nextId + 1),
         [.insert (trimmed b.name) (trimmed b.address) lat lng]) := by
  obtain ⟨-, -, ⟨x, hx, -, -⟩, ⟨y, hy, -, -⟩⟩ := validateAdd_eq_nil.mp hv
  refine ⟨x, y, hx, hy, ?_⟩
  unfold addSchool
  rw [if_pos hv]
  simp [Store.insert, hx, hy]

/-- Witness for C10: padded name and address get trimmed before insertion
and in the echoed record. -/
theorem addSchool_inserts_trimmed_witness :
    validateAdd ⟨some "  Alpha  ", some " 12 Main St ", some 5, some 6⟩ = [] ∧
    ∃ lat lng,
      (AddBody.mk (some "  Alpha  ") (some " 12 Main St ") (some 5) (some 6)).latitude
          = some lat ∧
      (AddBody.mk (some "  Alpha  ") (some " 12 Main St ") (some 5) (some 6)).longitude
          = some lng ∧
      addSchool ⟨some "  Alpha  ", some " 12 Main St ", some 5, some 6⟩ ⟨[], 1⟩ =
        (.created "School added successfully"
           ⟨(Store.mk [] 1).nextId, trimmed (some "  Alpha  "),
            trimmed (some " 12 Main St "), lat, lng⟩,
         Store.mk ((Store.mk [] 1).rows ++
             [⟨(Store.mk [] 1).nextId, trimmed (some "  Alpha  "),
               trimmed (some " 12 Main St "), lat, lng⟩])
           ((Store.mk [] 1).nextId + 1),
         [.insert (trimmed (some "  Alpha  ")) (trimmed (some " 12 Main St ")) lat lng]) := by
  have hv : validateAdd ⟨some "  Alpha  ", some " 12 Main St ", some 5, some 6⟩ = [] :=
    validateAdd_eq_nil.mpr ⟨by decide, by decide,
      ⟨5, rfl, by norm_num, by norm_num⟩, ⟨6, rfl, by norm_num, by norm_num⟩⟩
  exact ⟨hv, addSchool_inserts_trimmed
    ⟨some "  Alpha  ", some " 12 Main St ", some 5, some 6⟩ ⟨[], 1⟩ hv⟩

end SchoolAPI
